import Mathlib

/-!
Verification development for the airline-tweet sentiment dashboard
(`src/app.py`).  The script is a single top-to-bottom render pass over one
in-memory table:

  load CSV → date-range filter → per-panel aggregation / filtering /
  word cloud → CSV export → avatar fetch.

We embed the table shallowly: a row holds the tweet columns used by the
script, timestamps are minutes since an epoch whose day 0 is a Monday
(so `ts / 1440` is the derived calendar date as a day ordinal and
`ts % 1440 / 60` is the hour of day, mirroring `dt.date` / `dt.hour`),
and a table carries the pandas column index as a list of column names
next to its rows.  Pure pandas operations become list operations;
the one stateful step (the in-place `data['time'] = ...` assignment of
tab 1, observed by every later tab) is threaded explicitly through
`renderPass`, which mirrors the script's execution order.
-/

namespace App

/-- Granularity choices of the "Time aggregation" selectbox (app.py line 76). -/
inductive TimeAgg where
  | hourly
  | daily
  | weekly
deriving DecidableEq

/-- Day ordinal of a timestamp: the derived `date` column
(`data['tweet_created'].dt.date`, app.py line 28). -/
def dateOfTs (ts : Nat) : Nat := ts / 1440

/-- Hour of day of a timestamp (`data['tweet_created'].dt.hour`,
app.py lines 81 and 101-102). -/
def hourOfTs (ts : Nat) : Nat := ts % 1440 / 60

/-- Fixed-width big-endian decimal rendering of a natural number,
used to build the weekly period label. -/
def fixedDigits : Nat → Nat → List Char
  | 0, _ => []
  | w + 1, n => Nat.digitChar (n / 10 ^ w % 10) :: fixedDigits w (n % 10 ^ w)

/-- First day of the week a day ordinal falls in (day 0 is a Monday). -/
def weekStartDay (d : Nat) : Nat := d - d % 7

/-- Modelled from the spec: the weekly bucket
(`data['tweet_created'].dt.to_period('W').astype(str)`, app.py line 85)
is an external pandas rendering "start/end of week" in fixed-width ISO
form; the spec calls it an "ISO week identifier as a stable sortable
string".  We render both endpoints as fixed-width (8-digit) day
ordinals, which is a stable sortable string determined by the week. -/
def weekLabel (d : Nat) : String :=
  ⟨fixedDigits 8 (weekStartDay d) ++ '/' :: fixedDigits 8 (weekStartDay d + 6)⟩

/-- Value stored in the derived `time` column: an hour, a date, or a
weekly period string (app.py lines 80-85). -/
inductive TimeLabel where
  | hour (h : Nat)
  | day (d : Nat)
  | week (w : String)
deriving DecidableEq

/-- The time-bucketing step of tab 1 (app.py lines 80-85). -/
def bucket (g : TimeAgg) (ts : Nat) : TimeLabel :=
  match g with
  | .hourly => .hour (hourOfTs ts)
  | .daily => .day (dateOfTs ts)
  | .weekly => .week (weekLabel (dateOfTs ts))

/-- One row of the loaded table.  `time` is the slot of the derived
`time` column, absent until tab 1 assigns it. -/
structure Row where
  tweet_id : Nat
  airline_sentiment : String
  airline : String
  text : String
  tweet_created : Nat
  latitude : Option Int := none
  longitude : Option Int := none
  time : Option TimeLabel := none
deriving DecidableEq

/-- A dataframe: the pandas column index plus the rows. -/
structure Table where
  cols : List String
  rows : List Row
deriving DecidableEq

/-- Register a column on the index, as pandas column assignment does:
a new name is appended, an existing one is overwritten in place. -/
def addCol (cols : List String) (c : String) : List String :=
  if c ∈ cols then cols else cols ++ [c]

/-- Function `load_data` (app.py lines 21-29): reads the CSV, parses
`tweet_created`, and derives the `date` column.  Timestamp parsing is
the identity in the embedding (timestamps are already numbers); the
derived date is the function `dateOfTs` of `tweet_created`, and loading
registers the `date` column on the index. -/
def load_data (raw : Table) : Table :=
  { cols := addCol raw.cols "date", rows := raw.rows }

/-- The date-range filter
`data[(data['date'] >= lo) & (data['date'] <= hi)]` (app.py line 46). -/
def dateRangeFilter (t : Table) (lo hi : Nat) : Table :=
  { cols := t.cols,
    rows := t.rows.filter fun r =>
      decide (lo ≤ dateOfTs r.tweet_created) && decide (dateOfTs r.tweet_created ≤ hi) }

/-- The date-selection step (app.py lines 44-48): with exactly two
bounds the table is replaced by the filtered table; otherwise a sidebar
error is displayed (`st.sidebar.error`) and the table is left as is.
Returns the table the rest of the script uses and whether the error
was displayed. -/
def applyDateSelection (t : Table) (sel : List Nat) : Table × Bool :=
  if sel.length = 2 then
    (dateRangeFilter t (sel.getD 0 0) (sel.getD 1 0), false)
  else
    (t, true)

/-- The hour-range filter of tab 2 (app.py lines 100-103):
`data[(data['tweet_created'].dt.hour >= lo) & (data['tweet_created'].dt.hour <= hi)]`. -/
def hourRangeFilter (t : Table) (lo hi : Nat) : Table :=
  { cols := t.cols,
    rows := t.rows.filter fun r =>
      decide (lo ≤ hourOfTs r.tweet_created) && decide (hourOfTs r.tweet_created ≤ hi) }

/-- Insert into a sorted list (helper for `sortBy`). -/
def insertSorted {α : Type} (leb : α → α → Bool) (a : α) : List α → List α
  | [] => [a]
  | b :: bs => if leb a b then a :: b :: bs else b :: insertSorted leb a bs

/-- Insertion sort.  Stands in for the sorting pandas applies when
presenting aggregation results; structural recursion keeps it
evaluable by the kernel. -/
def sortBy {α : Type} (leb : α → α → Bool) : List α → List α
  | [] => []
  | a :: as => insertSorted leb a (sortBy leb as)

/-- Counts per distinct key of a row list: the common core of
`value_counts` and `groupby(...).size()`. -/
def keyCounts {K : Type} [DecidableEq K] (key : Row → K) (rows : List Row) : List (K × Nat) :=
  (rows.map key).dedup.map fun k => (k, (rows.map key).count k)

/-- Order groups by descending count, as `value_counts` presents them. -/
def sortByCountDesc {K : Type} (l : List (K × Nat)) : List (K × Nat) :=
  sortBy (fun a b => Nat.ble b.2 a.2) l

/-- Pandas `Series.value_counts`: counts per distinct value, sorted by
descending count. -/
def value_counts {K : Type} [DecidableEq K] (key : Row → K) (rows : List Row) : List (K × Nat) :=
  sortByCountDesc (keyCounts key rows)

/-- Pandas `groupby(keys).size()`: counts per distinct key, sorted ascending
by key under the given boolean key order. -/
def groupby_size {K : Type} [DecidableEq K] (leb : K → K → Bool) (key : Row → K)
    (rows : List Row) : List (K × Nat) :=
  sortBy (fun a b => leb a.1 b.1) (keyCounts key rows)

/-- Line 62, `sentiment_count = data['airline_sentiment'].value_counts()`
(app.py line 62). -/
def sentiment_count (t : Table) : List (String × Nat) :=
  value_counts (fun r => r.airline_sentiment) t.rows

/-- The in-place `data['time'] = ...` assignment of tab 1
(app.py lines 80-85): registers the `time` column and stores the
bucket of each row's timestamp. -/
def assignTime (g : TimeAgg) (t : Table) : Table :=
  { cols := addCol t.cols "time",
    rows := t.rows.map fun r => { r with time := some (bucket g r.tweet_created) } }

/-- Boolean order on stored time labels (pandas sorts group keys). -/
def labelLeb : TimeLabel → TimeLabel → Bool
  | .hour a, .hour b => Nat.ble a b
  | .day a, .day b => Nat.ble a b
  | .week a, .week b => a == b || decide (a < b)
  | .hour _, _ => true
  | _, .hour _ => false
  | .day _, _ => true
  | _, .day _ => false

/-- Boolean order on the optional stored label. -/
def optLabelLeb : Option TimeLabel → Option TimeLabel → Bool
  | none, _ => true
  | some _, none => false
  | some a, some b => labelLeb a b

/-- Boolean order on the `(time, airline_sentiment)` group key. -/
def timeKeyLeb (a b : Option TimeLabel × String) : Bool :=
  if a.1 == b.1 then a.2 == b.2 || decide (a.2 < b.2) else optLabelLeb a.1 b.1

/-- Line 87, `time_series = data.groupby(['time', 'airline_sentiment']).size()`
(app.py line 87), keyed on the stored `time` column. -/
def time_series (t : Table) : List ((Option TimeLabel × String) × Nat) :=
  groupby_size timeKeyLeb (fun r => (r.time, r.airline_sentiment)) t.rows

/-- Python's `str.lower`, character by character. -/
def toLowerStr (s : String) : String := ⟨s.data.map Char.toLower⟩

/-- Characters matched by the regex class `\w`. -/
def isWordChar (c : Char) : Bool := c.isAlphanum || c == '_'

/-- Characters a word-cloud token may continue with (`[\w']`). -/
def isTokenChar (c : Char) : Bool := isWordChar c || c.toNat == 39

/-- Tokenisation of the word-cloud library's `process_text`: the
default regex is one `\w` followed by one or more `[\w']`, so tokens
are maximal token-char runs of length at least two starting with a
word character. -/
def tokenize (text : String) : List String :=
  ((text.toList.splitOnP fun c => !isTokenChar c).filter fun w =>
    decide (2 ≤ w.length) && isWordChar (w.headD ' ')).map fun w => ⟨w⟩

/-- The word-cloud library's `process_text`: tokenize, drop pure
numbers (`include_numbers` is off by default), drop tokens whose
lower-case form is a (lower-cased) stopword, and count occurrences.
Collocation (bigram) handling and plural normalisation are omitted;
in the library both run after the same lower-cased stopword filter,
so they introduce no stopword entries. -/
def process_text (stops : List String) (text : String) : List (String × Nat) :=
  let lows := stops.map toLowerStr
  let kept := ((tokenize text).filter fun w => !(w.toList.all Char.isDigit)).filter
    fun w => !(lows.contains (toLowerStr w))
  kept.dedup.map fun w => (w, kept.count w)

/-- The word-cloud library's `generate_from_frequencies`: raises
`ValueError` on zero words, otherwise keeps the `max_words` most
frequent entries. -/
def generate_from_frequencies (maxW : Nat) (freqs : List (String × Nat)) :
    Except String (List (String × Nat)) :=
  if freqs.isEmpty then
    .error "We need at least 1 word to plot a word cloud, got 0."
  else
    .ok ((sortByCountDesc freqs).take maxW)

/-- Method `WordCloud(...).generate(text)`: `process_text` then
`generate_from_frequencies`. -/
def generate (stops : List String) (maxW : Nat) (text : String) :
    Except String (List (String × Nat)) :=
  generate_from_frequencies maxW (process_text stops text)

/-- The stopword set of app.py lines 173-175: `set(STOPWORDS)` updated
with the custom noise tokens.  `base` stands for the library's
`STOPWORDS` list, an external constant. -/
def stopwordSet (base : List String) : List String :=
  base ++ ["http", "https", "co", "RT"]

/-- The word-cloud panel of tab 4 (app.py lines 168-189): select the
rows of the chosen sentiment, join their texts with spaces, and run
the word-cloud generator.  An `Except.error` is an uncaught
`ValueError` escaping the panel. -/
def wordCloudPanel (t : Table) (sentiment : String) (base : List String) (maxW : Nat) :
    Except String (List (String × Nat)) :=
  let df := t.rows.filter fun r => r.airline_sentiment == sentiment
  generate (stopwordSet base) maxW (String.intercalate " " (df.map fun r => r.text))

/-- Whether a CSV field needs quoting (pandas `QUOTE_MINIMAL`). -/
def needsQuote (s : String) : Bool :=
  s.toList.any fun c => c == ',' || c == '"' || c == '\n' || c == '\r'

/-- Double every quote character of a field body. -/
def escapeQuotes (s : String) : String :=
  ⟨s.data.foldr (fun c acc => if c == '"' then '"' :: '"' :: acc else c :: acc) []⟩

/-- Render one CSV field, quoting and doubling quotes when needed. -/
def csvField (s : String) : String :=
  if needsQuote s then "\"" ++ escapeQuotes s ++ "\"" else s

/-- Render one CSV record (a header or a row) with a trailing newline. -/
def csvLine (cells : List String) : String :=
  String.intercalate "," (cells.map csvField) ++ "\n"

/-- String form of a stored time label (how the `time` column prints). -/
def labelStr : TimeLabel → String
  | .hour h => toString h
  | .day d => toString d
  | .week w => w

/-- The printed value of column `c` of row `r`. -/
def cellValue (c : String) (r : Row) : String :=
  if c == "tweet_id" then toString r.tweet_id
  else if c == "airline_sentiment" then r.airline_sentiment
  else if c == "airline" then r.airline
  else if c == "text" then r.text
  else if c == "tweet_created" then toString r.tweet_created
  else if c == "date" then toString (dateOfTs r.tweet_created)
  else if c == "time" then (match r.time with | some l => labelStr l | none => "")
  else if c == "latitude" then (match r.latitude with | some v => toString v | none => "")
  else if c == "longitude" then (match r.longitude with | some v => toString v | none => "")
  else ""

/-- Pandas `data.to_csv(index=False)` (app.py line 205): the header line
followed by one line per row, in row order. -/
def to_csv (t : Table) : String :=
  csvLine t.cols ++ String.join (t.rows.map fun r => csvLine (t.cols.map fun c => cellValue c r))

/-- String `.encode('utf-8')` (app.py line 205). -/
def encodeUtf8 (s : String) : ByteArray := s.toUTF8

/-- Column projection `df[[c₁, ..., cₙ]]` (app.py line 110). -/
def project (t : Table) (cs : List String) : Table :=
  { cols := cs, rows := t.rows }

/-- Outcome of `requests.get(image_url)` (app.py line 218): either a
response with a final status code and body, or a raised
`RequestException` (connection error, timeout, ...) with its message. -/
inductive FetchResult where
  | success (status : Nat) (content : List Nat)
  | failure (cause : String)

/-- Method `response.raise_for_status()`: raises `HTTPError` exactly for 4xx
and 5xx status codes, returning the exception message. -/
def raise_for_status (status : Nat) : Option String :=
  if 400 ≤ status ∧ status < 500 then some (toString status ++ " Client Error")
  else if 500 ≤ status ∧ status < 600 then some (toString status ++ " Server Error")
  else none

/-- What the avatar block displays in the sidebar. -/
inductive SidebarRender where
  | image (content : List Nat) (caption : String)
  | errorMsg (msg : String)
deriving DecidableEq

/-- Whether the avatar block displayed the error widget. -/
def isErrorRender : SidebarRender → Bool
  | .errorMsg _ => true
  | _ => false

/-- The avatar block (app.py lines 216-223): `requests.get`, then
`raise_for_status`; any `RequestException` is caught and shown as
`st.sidebar.error("Error loading image: " + cause)`; otherwise the
response body is shown as the image. -/
def avatarPanel (r : FetchResult) : SidebarRender :=
  match r with
  | .failure cause => .errorMsg ("Error loading image: " ++ cause)
  | .success status content =>
    match raise_for_status status with
    | some cause => .errorMsg ("Error loading image: " ++ cause)
    | none => .image content "Moon Benjee (문벤지)"

/-- Everything one top-to-bottom run of the script computes, in
execution order. -/
structure RenderState where
  dateError : Bool
  data : Table
  sentiment_count : List (String × Nat)
  time_series : List ((Option TimeLabel × String) × Nat)
  filtered_data : Table
  preview : Table
  airlineWarning : Bool
  wordcloud : Except String (List (String × Nat))
  exportBytes : ByteArray
  exportName : String
  avatar : SidebarRender
  sidebarFooter : String

/-- One render pass of app.py, in source order: load (line 32), date
selection (44-48), tab 1 sentiment counts (62) and time assignment
plus time series (80-87), tab 2 hour filter and preview (100-110),
tab 3 airline warning (124-145), tab 4 word cloud (168-189), sidebar
CSV export (204-211), avatar fetch (216-223), closing sidebar text
(225-238).  The shared table mutated in tab 1 is the one every later
consumer reads. -/
def renderPass (raw : Table) (sel : List Nat) (g : TimeAgg) (hLo hHi : Nat)
    (airlines : List String) (ws : String) (baseStops : List String) (maxW : Nat)
    (fetch : FetchResult) : RenderState :=
  let data0 := load_data raw
  let p := applyDateSelection data0 sel
  let sc := sentiment_count p.1
  let data2 := assignTime g p.1
  let fd := hourRangeFilter data2 hLo hHi
  { dateError := p.2
    data := data2
    sentiment_count := sc
    time_series := time_series data2
    filtered_data := fd
    preview := project fd ["text", "airline", "airline_sentiment", "tweet_created"]
    airlineWarning := airlines.isEmpty
    wordcloud := wordCloudPanel data2 ws baseStops maxW
    exportBytes := encodeUtf8 (to_csv data2)
    exportName := "airline_tweets.csv"
    avatar := avatarPanel fetch
    sidebarFooter := "Dashboard Features" }

/-- Sample row, dated day 50 at 09:00. -/
def row1 : Row :=
  { tweet_id := 1, airline_sentiment := "positive", airline := "United",
    text := "great flight", tweet_created := 50 * 1440 + 9 * 60 }

/-- Sample row, dated day 51 at 17:00. -/
def row2 : Row :=
  { tweet_id := 2, airline_sentiment := "negative", airline := "Delta",
    text := "bad, flight http co", tweet_created := 51 * 1440 + 17 * 60 }

/-- Sample row, dated day 52 at 23:00. -/
def row3 : Row :=
  { tweet_id := 3, airline_sentiment := "positive", airline := "United",
    text := "ok trip", tweet_created := 52 * 1440 + 23 * 60 }

/-- Sample three-row table spanning days 50-52 (the spec's scenario of
rows spread over three consecutive dates). -/
def sampleTable : Table :=
  { cols := ["tweet_id", "airline_sentiment", "airline", "text", "tweet_created"],
    rows := [row1, row2, row3] }

/-- A table with the sample columns and no rows. -/
def emptyTable : Table :=
  { cols := ["tweet_id", "airline_sentiment", "airline", "text", "tweet_created"],
    rows := [] }

theorem perm_insertSorted {α : Type} (leb : α → α → Bool) (a : α) (l : List α) :
    List.Perm (insertSorted leb a l) (a :: l) := by
  induction l with
  | nil => exact List.Perm.refl _
  | cons b bs ih =>
    unfold insertSorted
    by_cases h : leb a b = true
    · simp [h]
    · simp only [h, if_false]
      exact List.Perm.trans (List.Perm.cons b ih) (List.Perm.swap a b bs)

theorem perm_sortBy {α : Type} (leb : α → α → Bool) (l : List α) :
    List.Perm (sortBy leb l) l := by
  induction l with
  | nil => exact List.Perm.refl _
  | cons a as ih =>
    exact List.Perm.trans (perm_insertSorted leb a (sortBy leb as)) (List.Perm.cons a ih)

theorem keyCounts_snd_sum {K : Type} [DecidableEq K] (key : Row → K) (rows : List Row) :
    ((keyCounts key rows).map Prod.snd).sum = rows.length := by
  unfold keyCounts
  rw [List.map_map]
  have h1 : (Prod.snd ∘ fun k => (k, (rows.map key).count k)) =
      fun k => (rows.map key).count k := rfl
  rw [h1, List.sum_map_count_dedup_eq_length, List.length_map]

/-- Claim C1: for every table and every valid date range with lo ≤ hi,
the date-range filter keeps exactly the rows whose derived date lies in
the inclusive range, preserves the original row order (its output is a
sublist of the input), and preserves all columns. -/
theorem dateRangeFilter_exact (t : Table) (lo hi : Nat) (h : lo ≤ hi) :
    (dateRangeFilter t lo hi).cols = t.cols ∧
    List.Sublist (dateRangeFilter t lo hi).rows t.rows ∧
    (∀ r ∈ (dateRangeFilter t lo hi).rows,
      lo ≤ dateOfTs r.tweet_created ∧ dateOfTs r.tweet_created ≤ hi) ∧
    (∀ r : Row, lo ≤ dateOfTs r.tweet_created → dateOfTs r.tweet_created ≤ hi →
      (dateRangeFilter t lo hi).rows.count r = t.rows.count r) := by
  refine ⟨rfl, List.filter_sublist _, ?_, ?_⟩
  · intro r hr
    have h' := List.of_mem_filter hr
    simp only [Bool.and_eq_true, decide_eq_true_eq] at h'
    exact h'
  · intro r h1 h2
    apply List.count_filter
    simp [h1, h2]

/-- Witness for C1 at the sample table and the range of days 50-51
(the spec's scenario: the day-52 row is excluded). -/
theorem dateRangeFilter_exact_witness :
    (50 : Nat) ≤ 51 ∧
    ((dateRangeFilter sampleTable 50 51).cols = sampleTable.cols ∧
    List.Sublist (dateRangeFilter sampleTable 50 51).rows sampleTable.rows ∧
    (∀ r ∈ (dateRangeFilter sampleTable 50 51).rows,
      50 ≤ dateOfTs r.tweet_created ∧ dateOfTs r.tweet_created ≤ 51) ∧
    (∀ r : Row, 50 ≤ dateOfTs r.tweet_created → dateOfTs r.tweet_created ≤ 51 →
      (dateRangeFilter sampleTable 50 51).rows.count r = sampleTable.rows.count r)) :=
  ⟨by decide, dateRangeFilter_exact sampleTable 50 51 (by decide)⟩

/-- Claim C4: for every hour range with 0 ≤ lo ≤ hi ≤ 23, the hour
filter of the geospatial tab keeps exactly the rows whose timestamp
hour lies in the inclusive range. -/
theorem hourRangeFilter_exact (t : Table) (lo hi : Nat) (h1 : lo ≤ hi) (h2 : hi ≤ 23) :
    (hourRangeFilter t lo hi).cols = t.cols ∧
    List.Sublist (hourRangeFilter t lo hi).rows t.rows ∧
    (∀ r ∈ (hourRangeFilter t lo hi).rows,
      lo ≤ hourOfTs r.tweet_created ∧ hourOfTs r.tweet_created ≤ hi) ∧
    (∀ r : Row, lo ≤ hourOfTs r.tweet_created → hourOfTs r.tweet_created ≤ hi →
      (hourRangeFilter t lo hi).rows.count r = t.rows.count r) := by
  refine ⟨rfl, List.filter_sublist _, ?_, ?_⟩
  · intro r hr
    have h' := List.of_mem_filter hr
    simp only [Bool.and_eq_true, decide_eq_true_eq] at h'
    exact h'
  · intro r ha hb
    apply List.count_filter
    simp [ha, hb]

/-- Witness for C4 at the sample table and the default 9-17 hour range. -/
theorem hourRangeFilter_exact_witness :
    (9 : Nat) ≤ 17 ∧ (17 : Nat) ≤ 23 ∧
    ((hourRangeFilter sampleTable 9 17).cols = sampleTable.cols ∧
    List.Sublist (hourRangeFilter sampleTable 9 17).rows sampleTable.rows ∧
    (∀ r ∈ (hourRangeFilter sampleTable 9 17).rows,
      9 ≤ hourOfTs r.tweet_created ∧ hourOfTs r.tweet_created ≤ 17) ∧
    (∀ r : Row, 9 ≤ hourOfTs r.tweet_created → hourOfTs r.tweet_created ≤ 17 →
      (hourRangeFilter sampleTable 9 17).rows.count r = sampleTable.rows.count r)) :=
  ⟨by decide, by decide, hourRangeFilter_exact sampleTable 9 17 (by decide) (by decide)⟩

/-- Claim C3: for every input table, the counts of the sentiment
aggregation and of the time-by-sentiment aggregation each sum to the
number of rows of the table they aggregate: no rows are dropped or
double-counted. -/
theorem aggregation_counts_sum (t : Table) :
    ((sentiment_count t).map Prod.snd).sum = t.rows.length ∧
    ((time_series t).map Prod.snd).sum = t.rows.length := by
  constructor
  · unfold sentiment_count value_counts sortByCountDesc
    rw [((perm_sortBy _ _).map Prod.snd).sum_eq, keyCounts_snd_sum]
  · unfold time_series groupby_size
    rw [((perm_sortBy _ _).map Prod.snd).sum_eq, keyCounts_snd_sum]

theorem digitChar_lt {i j : Nat} (hj : j < 10) (hij : i < j) :
    Nat.digitChar i < Nat.digitChar j := by
  interval_cases j <;> interval_cases i <;> decide

theorem fixedDigits_length (w n : Nat) : (fixedDigits w n).length = w := by
  induction w generalizing n with
  | zero => rfl
  | succ w ih => simp [fixedDigits, ih]

theorem fixedDigits_lex_lt {w n m : Nat} (hm : m < 10 ^ w) (h : n < m) :
    List.Lex (· < ·) (fixedDigits w n) (fixedDigits w m) := by
  induction w generalizing n m with
  | zero => simp at hm; omega
  | succ w ih =>
    have hm10 : m / 10 ^ w < 10 := by
      apply Nat.div_lt_of_lt_mul
      calc m < 10 ^ (w + 1) := hm
        _ = 10 ^ w * 10 := by rw [pow_succ]
    unfold fixedDigits
    rcases Nat.lt_trichotomy (n / 10 ^ w) (m / 10 ^ w) with hlt | heq | hgt
    · apply List.Lex.rel
      rw [Nat.mod_eq_of_lt (lt_trans hlt hm10), Nat.mod_eq_of_lt hm10]
      exact digitChar_lt hm10 hlt
    · rw [heq]
      apply List.Lex.cons
      apply ih (Nat.mod_lt m (Nat.pos_pow_of_pos w (by norm_num)))
      have d1 := Nat.div_add_mod n (10 ^ w)
      have d2 := Nat.div_add_mod m (10 ^ w)
      rw [heq] at d1
      omega
    · have := Nat.div_le_div_right (c := 10 ^ w) (Nat.le_of_lt h)
      omega

theorem lex_append_of_lex {l1 l2 t1 t2 : List Char}
    (h : List.Lex (· < ·) l1 l2) :
    l1.length = l2.length → List.Lex (· < ·) (l1 ++ t1) (l2 ++ t2) := by
  induction h with
  | nil => intro hlen; simp at hlen
  | cons h ih =>
    intro hlen
    exact List.Lex.cons (ih (by simpa using hlen))
  | rel hr => intro hlen; exact List.Lex.rel hr

theorem weekStartDay_mono {d1 d2 : Nat} (h : d1 ≤ d2) : weekStartDay d1 ≤ weekStartDay d2 := by
  unfold weekStartDay; omega

theorem weekStartDay_le (d : Nat) : weekStartDay d ≤ d := by
  unfold weekStartDay; omega

theorem weekLabel_mono {d1 d2 : Nat} (h : d1 ≤ d2) (hb : d2 < 10 ^ 8) :
    weekLabel d1 < weekLabel d2 ∨ weekLabel d1 = weekLabel d2 := by
  rcases Nat.lt_or_ge (weekStartDay d1) (weekStartDay d2) with hlt | hge
  · left
    rw [String.lt_iff_toList_lt]
    exact lex_append_of_lex
      (fixedDigits_lex_lt (lt_of_le_of_lt (weekStartDay_le d2) hb) hlt)
      (by rw [fixedDigits_length, fixedDigits_length])
  · right
    have heq : weekStartDay d1 = weekStartDay d2 :=
      le_antisymm (weekStartDay_mono h) hge
    unfold weekLabel
    rw [heq]

/-- Claim C7 counterexample: two timestamps in chronological order
(day 0 at 23:00, then day 1 at 01:00) whose hourly bucket labels sort
in the opposite order: hour-of-day bucketing is not chronologically
monotone across days. -/
theorem bucket_hourly_not_chronological :
    (23 * 60 : Nat) < 25 * 60 ∧
    bucket TimeAgg.hourly (23 * 60) = TimeLabel.hour 23 ∧
    bucket TimeAgg.hourly (25 * 60) = TimeLabel.hour 1 ∧
    (1 : Nat) < 23 := by decide

/-- Claim C7 (amended): time bucketing is a total function for each
granularity — every row maps to exactly one bucket label, hourly to an
integer hour in [0, 23] — and for daily and weekly bucketing the sort
order of the bucket labels is consistent with the chronological order
of the timestamps; hourly bucketing maps to hour of day, which is not
chronologically monotone across days. -/
theorem bucket_total_and_label_order (g : TimeAgg) (ts ts1 ts2 : Nat)
    (h12 : ts1 ≤ ts2) (hb : ts2 < 10 ^ 8 * 1440) :
    (∃! l : TimeLabel, bucket g ts = l) ∧
    hourOfTs ts ≤ 23 ∧
    dateOfTs ts1 ≤ dateOfTs ts2 ∧
    (weekLabel (dateOfTs ts1) < weekLabel (dateOfTs ts2) ∨
      weekLabel (dateOfTs ts1) = weekLabel (dateOfTs ts2)) := by
  have h8 : (10 : Nat) ^ 8 = 100000000 := by norm_num
  refine ⟨⟨bucket g ts, rfl, fun y hy => hy.symm⟩, ?_, ?_, ?_⟩
  · unfold hourOfTs; omega
  · exact Nat.div_le_div_right h12
  · rw [h8] at hb
    apply weekLabel_mono (Nat.div_le_div_right h12)
    rw [h8]
    show ts2 / 1440 < 100000000
    omega

/-- Witness for the amended C7 at concrete timestamps 1380 (day 0,
23:00) and 1500 (day 1, 01:00). -/
theorem bucket_total_and_label_order_witness :
    (1380 : Nat) ≤ 1500 ∧ (1500 : Nat) < 10 ^ 8 * 1440 ∧
    ((∃! l : TimeLabel, bucket TimeAgg.weekly 777 = l) ∧
    hourOfTs 777 ≤ 23 ∧
    dateOfTs 1380 ≤ dateOfTs 1500 ∧
    (weekLabel (dateOfTs 1380) < weekLabel (dateOfTs 1500) ∨
      weekLabel (dateOfTs 1380) = weekLabel (dateOfTs 1500))) :=
  ⟨by decide, by decide,
    bucket_total_and_label_order TimeAgg.weekly 777 1380 1500 (by decide) (by decide)⟩

/-- Claim C2 counterexample: with the sample table and the malformed
one-element date selection [5], the sidebar error is displayed, yet the
render pass does not skip the affected panels: the shared table still
holds all three unfiltered rows and the sentiment panel renders
nonempty counts over the full table — filtering is silently replaced
by the unfiltered table. -/
theorem malformed_selection_counterexample :
    (renderPass sampleTable [5] TimeAgg.hourly 0 23 [] "positive" [] 150
      (FetchResult.failure "x")).dateError = true ∧
    ((renderPass sampleTable [5] TimeAgg.hourly 0 23 [] "positive" [] 150
      (FetchResult.failure "x")).data.rows.map fun r => r.tweet_id) = [1, 2, 3] ∧
    (renderPass sampleTable [5] TimeAgg.hourly 0 23 [] "positive" [] 150
      (FetchResult.failure "x")).sentiment_count = [("positive", 2), ("negative", 1)] := by
  refine ⟨rfl, rfl, rfl⟩

/-- Claim C2 (amended): a malformed (non-2-element) date selection
displays the sidebar error widget, but the affected render pass is not
skipped and no filtering happens: every panel and the export operate
on the unfiltered full table for that pass. -/
theorem malformed_selection_reported_then_full_table (raw : Table) (sel : List Nat)
    (g : TimeAgg) (hLo hHi : Nat) (airlines : List String) (ws : String)
    (baseStops : List String) (maxW : Nat) (f : FetchResult) (h : sel.length ≠ 2) :
    (renderPass raw sel g hLo hHi airlines ws baseStops maxW f).dateError = true ∧
    (renderPass raw sel g hLo hHi airlines ws baseStops maxW f).data =
      assignTime g (load_data raw) ∧
    (renderPass raw sel g hLo hHi airlines ws baseStops maxW f).sentiment_count =
      sentiment_count (load_data raw) := by
  unfold renderPass applyDateSelection
  simp [h]

/-- Witness for the amended C2 at the sample table and selection [5]. -/
theorem malformed_selection_reported_witness :
    ([5] : List Nat).length ≠ 2 ∧
    ((renderPass sampleTable [5] TimeAgg.daily 0 23 [] "positive" [] 150
      (FetchResult.failure "x")).dateError = true ∧
    (renderPass sampleTable [5] TimeAgg.daily 0 23 [] "positive" [] 150
      (FetchResult.failure "x")).data = assignTime TimeAgg.daily (load_data sampleTable) ∧
    (renderPass sampleTable [5] TimeAgg.daily 0 23 [] "positive" [] 150
      (FetchResult.failure "x")).sentiment_count = sentiment_count (load_data sampleTable)) :=
  ⟨by decide,
    malformed_selection_reported_then_full_table sampleTable [5] TimeAgg.daily 0 23 []
      "positive" [] 150 (FetchResult.failure "x") (by decide)⟩

/-- Claim C5: aggregation over zero rows does return an empty result
set, but the word-cloud panel over an empty sentiment class does not
render a notice: the generator receives zero words and raises
`ValueError` (app.py lines 168-189 have no guard or try/except), so
the panel fails instead of showing a "no data" notice. -/
theorem empty_input_aggregation_and_wordcloud :
    time_series (assignTime TimeAgg.hourly emptyTable) = [] ∧
    sentiment_count emptyTable = [] ∧
    wordCloudPanel (assignTime TimeAgg.hourly emptyTable) "positive" [] 150 =
      Except.error "We need at least 1 word to plot a word cloud, got 0." :=
  ⟨rfl, rfl, rfl⟩

/-- Claim C8 counterexample: a final response status of 304 is not
2xx, yet `raise_for_status` raises only for 4xx/5xx, so the avatar
block displays the response body as the image instead of surfacing an
error. -/
theorem avatar_non2xx_not_always_error :
    ((304 : Nat) < 200 ∨ (299 : Nat) < 304) ∧
    isErrorRender (avatarPanel (FetchResult.success 304 [7])) = false := by decide

/-- Claim C8 (amended): every requests-level failure (timeout,
connection error) and every 4xx/5xx response status is caught at the
fetch boundary and surfaced as an error message containing the failure
cause, displayed in place of the image, and the render pass always
completes — the sidebar content after the fetch renders for every
fetch outcome.  Non-2xx statuses outside 4xx/5xx (1xx/3xx) are not
treated as failures. -/
theorem avatar_failures_caught (cause : String) (status : Nat) (content : List Nat)
    (raw : Table) (sel : List Nat) (g : TimeAgg) (hLo hHi : Nat) (airlines : List String)
    (ws : String) (baseStops : List String) (maxW : Nat) (f : FetchResult)
    (h4 : 400 ≤ status) (h6 : status < 600) :
    avatarPanel (FetchResult.failure cause) =
      SidebarRender.errorMsg ("Error loading image: " ++ cause) ∧
    (∃ c : String, avatarPanel (FetchResult.success status content) =
      SidebarRender.errorMsg ("Error loading image: " ++ c)) ∧
    (renderPass raw sel g hLo hHi airlines ws baseStops maxW f).sidebarFooter =
      "Dashboard Features" ∧
    (renderPass raw sel g hLo hHi airlines ws baseStops maxW f).avatar = avatarPanel f := by
  refine ⟨rfl, ?_, rfl, rfl⟩
  by_cases h5 : status < 500
  · refine ⟨toString status ++ " Client Error", ?_⟩
    have hr : raise_for_status status = some (toString status ++ " Client Error") := by
      unfold raise_for_status
      rw [if_pos ⟨h4, h5⟩]
    simp [avatarPanel, hr]
  · refine ⟨toString status ++ " Server Error", ?_⟩
    have hr : raise_for_status status = some (toString status ++ " Server Error") := by
      unfold raise_for_status
      rw [if_neg (by omega), if_pos ⟨by omega, h6⟩]
    simp [avatarPanel, hr]

/-- Witness for the amended C8 at a concrete cause and a 404 status. -/
theorem avatar_failures_caught_witness :
    (400 : Nat) ≤ 404 ∧ (404 : Nat) < 600 ∧
    (avatarPanel (FetchResult.failure "boom") =
      SidebarRender.errorMsg ("Error loading image: " ++ "boom") ∧
    (∃ c : String, avatarPanel (FetchResult.success 404 [7]) =
      SidebarRender.errorMsg ("Error loading image: " ++ c)) ∧
    (renderPass sampleTable [50, 51] TimeAgg.hourly 0 23 [] "positive" [] 150
      (FetchResult.success 404 [7])).sidebarFooter = "Dashboard Features" ∧
    (renderPass sampleTable [50, 51] TimeAgg.hourly 0 23 [] "positive" [] 150
      (FetchResult.success 404 [7])).avatar = avatarPanel (FetchResult.success 404 [7])) :=
  ⟨by decide, by decide,
    avatar_failures_caught "boom" 404 [7] sampleTable [50, 51] TimeAgg.hourly 0 23 []
      "positive" [] 150 (FetchResult.success 404 [7]) (by decide) (by decide)⟩

theorem mem_addCol_self (cols : List String) (c : String) : c ∈ addCol cols c := by
  unfold addCol
  by_cases h : c ∈ cols
  · rwa [if_pos h]
  · rw [if_neg h]
    exact List.mem_append_right _ (List.mem_singleton_self c)

theorem mem_addCol_of_mem {cols : List String} {c : String} (d : String) (h : c ∈ cols) :
    c ∈ addCol cols d := by
  unfold addCol
  split
  · exact h
  · exact List.mem_append_left _ h

theorem applyDateSelection_fst_cols (t : Table) (sel : List Nat) :
    ((applyDateSelection t sel).1).cols = t.cols := by
  unfold applyDateSelection
  split <;> rfl

theorem renderPass_data_cols (raw : Table) (sel : List Nat) (g : TimeAgg) (hLo hHi : Nat)
    (airlines : List String) (ws : String) (baseStops : List String) (maxW : Nat)
    (f : FetchResult) :
    (renderPass raw sel g hLo hHi airlines ws baseStops maxW f).data.cols =
      addCol (addCol raw.cols "date") "time" := by
  show (assignTime g (applyDateSelection (load_data raw) sel).1).cols = _
  show addCol ((applyDateSelection (load_data raw) sel).1).cols "time" = _
  rw [applyDateSelection_fst_cols]
  rfl

/-- Claim C9: the dataset export serializes the current filtered table
(the date-filtered shared table, carrying its derived columns) — not
the unfiltered full table — as the UTF-8 bytes of its CSV text under
the fixed filename `airline_tweets.csv`; the export is a pure function
of that table, and a table of zero rows still yields the header-only
CSV text. -/
theorem export_serializes_filtered (raw : Table) (sel : List Nat) (g : TimeAgg)
    (hLo hHi : Nat) (airlines : List String) (ws : String) (baseStops : List String)
    (maxW : Nat) (f : FetchResult) (h : sel.length = 2) :
    (renderPass raw sel g hLo hHi airlines ws baseStops maxW f).exportBytes =
      encodeUtf8 (to_csv (assignTime g
        (dateRangeFilter (load_data raw) (sel.getD 0 0) (sel.getD 1 0)))) ∧
    (renderPass raw sel g hLo hHi airlines ws baseStops maxW f).exportName =
      "airline_tweets.csv" ∧
    (∀ t : Table, t.rows = [] → to_csv t = csvLine t.cols) := by
  refine ⟨?_, rfl, ?_⟩
  · show encodeUtf8 (to_csv (assignTime g (applyDateSelection (load_data raw) sel).1)) = _
    unfold applyDateSelection
    rw [if_pos h]
  · intro t ht
    unfold to_csv
    rw [ht]
    show csvLine t.cols ++ String.join [] = csvLine t.cols
    rw [show String.join ([] : List String) = "" from rfl]
    exact String.append_empty _

/-- Witness for C9 at the sample table and the valid selection of days
50-51. -/
theorem export_serializes_filtered_witness :
    ([50, 51] : List Nat).length = 2 ∧
    ((renderPass sampleTable [50, 51] TimeAgg.daily 9 17 [] "positive" [] 150
      (FetchResult.failure "x")).exportBytes =
      encodeUtf8 (to_csv (assignTime TimeAgg.daily
        (dateRangeFilter (load_data sampleTable) (([50, 51] : List Nat).getD 0 0)
          (([50, 51] : List Nat).getD 1 0)))) ∧
    (renderPass sampleTable [50, 51] TimeAgg.daily 9 17 [] "positive" [] 150
      (FetchResult.failure "x")).exportName = "airline_tweets.csv" ∧
    (∀ t : Table, t.rows = [] → to_csv t = csvLine t.cols)) :=
  ⟨by decide,
    export_serializes_filtered sampleTable [50, 51] TimeAgg.daily 9 17 [] "positive" [] 150
      (FetchResult.failure "x") (by decide)⟩

/-- Claim C10: the time-aggregation selection of the Overview tab adds
the `time` column to the shared filtered table in place, so every
later consumer of that table in the same render pass — the
hour-filtered geospatial view, the raw-data preview's source table,
and the CSV export — observes a table whose column set includes the
derived `time` column (with its bucket values stored in every row) in
addition to all loaded columns and the derived `date` column. -/
theorem time_column_observed_downstream (raw : Table) (sel : List Nat) (g : TimeAgg)
    (hLo hHi : Nat) (airlines : List String) (ws : String) (baseStops : List String)
    (maxW : Nat) (f : FetchResult) :
    "time" ∈ (renderPass raw sel g hLo hHi airlines ws baseStops maxW f).data.cols ∧
    "time" ∈ (renderPass raw sel g hLo hHi airlines ws baseStops maxW f).filtered_data.cols ∧
    (renderPass raw sel g hLo hHi airlines ws baseStops maxW f).preview =
      project (renderPass raw sel g hLo hHi airlines ws baseStops maxW f).filtered_data
        ["text", "airline", "airline_sentiment", "tweet_created"] ∧
    (renderPass raw sel g hLo hHi airlines ws baseStops maxW f).exportBytes =
      encodeUtf8 (to_csv (renderPass raw sel g hLo hHi airlines ws baseStops maxW f).data) ∧
    "date" ∈ (renderPass raw sel g hLo hHi airlines ws baseStops maxW f).data.cols ∧
    (∀ c ∈ raw.cols,
      c ∈ (renderPass raw sel g hLo hHi airlines ws baseStops maxW f).data.cols) ∧
    (∀ r ∈ (renderPass raw sel g hLo hHi airlines ws baseStops maxW f).data.rows,
      r.time = some (bucket g r.tweet_created)) := by
  refine ⟨?_, ?_, rfl, rfl, ?_, ?_, ?_⟩
  · rw [renderPass_data_cols]
    exact mem_addCol_self _ _
  · show "time" ∈ (renderPass raw sel g hLo hHi airlines ws baseStops maxW f).data.cols
    rw [renderPass_data_cols]
    exact mem_addCol_self _ _
  · rw [renderPass_data_cols]
    exact mem_addCol_of_mem _ (mem_addCol_self _ _)
  · intro c hc
    rw [renderPass_data_cols]
    exact mem_addCol_of_mem _ (mem_addCol_of_mem _ hc)
  · intro r hr
    have hr' : r ∈ (assignTime g (applyDateSelection (load_data raw) sel).1).rows := hr
    simp only [assignTime, List.mem_map] at hr'
    obtain ⟨r', _, rfl⟩ := hr'
    rfl

/-- Claim C6: whenever word-cloud generation succeeds, no token of the
stopword set (the library stopword list extended with the URL/link and
retweet noise tokens) appears as a cloud entry, and the number of
entries does not exceed the configured maximum word count. -/
theorem wordcloud_excludes_stopwords (base : List String) (text : String) (maxW : Nat)
    (entries : List (String × Nat))
    (h : generate (stopwordSet base) maxW text = Except.ok entries) :
    (∀ s ∈ stopwordSet base, ∀ n : Nat, (s, n) ∉ entries) ∧ entries.length ≤ maxW := by
  unfold generate generate_from_frequencies at h
  by_cases he : (process_text (stopwordSet base) text).isEmpty
  · rw [if_pos he] at h
    exact Except.noConfusion h
  · rw [if_neg he] at h
    have hE : entries = (sortByCountDesc (process_text (stopwordSet base) text)).take maxW :=
      (Except.ok.inj h).symm
    subst hE
    refine ⟨?_, List.length_take_le _ _⟩
    intro s hs n hmem
    have h1 : (s, n) ∈ sortByCountDesc (process_text (stopwordSet base) text) :=
      List.take_subset _ _ hmem
    have h2 : (s, n) ∈ process_text (stopwordSet base) text :=
      ((perm_sortBy _ _).mem_iff).mp h1
    simp only [process_text, List.mem_map, List.mem_dedup] at h2
    obtain ⟨w, hw, heq⟩ := h2
    injection heq with hws hn
    subst hws
    have hpred := List.of_mem_filter hw
    simp only [Bool.not_eq_true'] at hpred
    have htrue : (((stopwordSet base).map toLowerStr).contains (toLowerStr w)) = true := by
      simpa using List.mem_map_of_mem toLowerStr hs
    rw [htrue] at hpred
    exact Bool.noConfusion hpred

/-- Witness for C6: a concrete text whose `http` and `RT` tokens are
excluded and whose surviving entries respect the maximum. -/
theorem wordcloud_excludes_stopwords_witness :
    generate (stopwordSet []) 5 "http hello hello RT world" =
      Except.ok [("hello", 2), ("world", 1)] ∧
    ((∀ s ∈ stopwordSet [], ∀ n : Nat, (s, n) ∉ [("hello", (2 : Nat)), ("world", 1)]) ∧
    ([("hello", (2 : Nat)), ("world", (1 : Nat))]).length ≤ 5) :=
  ⟨rfl, wordcloud_excludes_stopwords [] "http hello hello RT world" 5
    [("hello", 2), ("world", 1)] rfl⟩

end App
